import Mathlib

/-!
Verification of the Sport-Line repository fragment: the candidate-ranking
service (src/services/geminiService.ts) and the map presenter component
(the unnamed MapView file).

Modelling conventions:
  - JavaScript numbers that the claims use only for comparisons and
    defaulting (compatibility scores, player counts) are modelled as Int.
  - The JavaScript truthiness of the `x || d` defaulting idiom is modelled
    exactly: on integers only 0 is falsy, on strings only "" is falsy.
  - The asynchronous model call is modelled by a RankOutcome parameter:
    RankOutcome.threw stands for any exception escaping the awaited call or
    the JSON parse (network failure, API error, malformed JSON), and
    RankOutcome.ok rs stands for a successful call whose response text
    parsed to the entry list rs (the code substitutes "[]" for an empty or
    missing response text, which is RankOutcome.ok []).
  - JavaScript Array.prototype.sort with comparator (a, b) => b.score - a.score
    is a stable sort placing a before b whenever b.score - a.score is
    negative; it is modelled by the stable List.mergeSort with the boolean
    comparator b.score <= a.score.
-/

/-- Geographic coordinate pair. The numeric type is immaterial to every
claim (no coordinate arithmetic occurs in the verified code paths). -/
structure Coord where
  lat : Int
  lng : Int
deriving DecidableEq, Repr

/-- User record from ../types as consumed by geminiService.ts and MapView:
identity, profile fields, preferred sports, skill level, location mode
("live" or "static"), visibility flag, and coordinates. -/
structure User where
  uid : String
  displayName : String
  username : String
  avatarUrl : String
  preferredSports : List String
  skillLevel : String
  locationMode : String
  isVisible : Bool
  staticCoords : Coord
  displayCoords : Option Coord
deriving DecidableEq, Repr

/-- RankedUser from geminiService.ts: a User extended with the two derived
ranking fields. The TypeScript spread { ...c, compatibilityScore, rankingReason }
is modelled by embedding the whole User record unchanged as toUser. -/
structure RankedUser where
  toUser : User
  compatibilityScore : Int
  rankingReason : String
deriving DecidableEq, Repr

/-- One element of the parsed model response: the JSON schema requires
exactly uid, compatibilityScore and rankingReason. -/
structure RankEntry where
  uid : String
  compatibilityScore : Int
  rankingReason : String
deriving DecidableEq, Repr

/-- Outcome of the awaited generateContent call plus JSON.parse: either an
exception was thrown somewhere in the try block before the merge, or the
response text parsed to a list of entries. -/
inductive RankOutcome where
  | threw : RankOutcome
  | ok : List RankEntry → RankOutcome
deriving DecidableEq, Repr

/-- JavaScript defaulting idiom n || d on integer-valued numbers: 0 is the
only falsy integer. -/
def jsOrInt (n : Int) (d : Int) : Int :=
  if n = 0 then d else n

/-- JavaScript defaulting idiom s || d on strings: "" is the only falsy
string. -/
def jsOrString (s : String) (d : String) : String :=
  if s = "" then d else s

/-- Fixed reason used on the missing-credential path of rankCandidates. -/
def unavailableReason : String := "AI ranking unavailable"

/-- Fixed reason used on the catch path of rankCandidates. -/
def failedReason : String := "Ranking failed"

/-- Fixed reason used for candidates with no matching response entry. -/
def noReasonProvided : String := "No specific reason provided"

/-- Fallback record built by candidates.map on both degraded paths:
{ ...c, compatibilityScore: 0, rankingReason: reason }. -/
def mkFallback (reason : String) (c : User) : RankedUser :=
  { toUser := c, compatibilityScore := 0, rankingReason := reason }

/-- Merge step for one candidate, from the map over candidates inside the
try block: rankedData.find(r => r.uid === candidate.uid), then
{ ...candidate, compatibilityScore: rank?.compatibilityScore || 0,
  rankingReason: rank?.rankingReason || "No specific reason provided" }. -/
def mergeCandidate (rankedData : List RankEntry) (c : User) : RankedUser :=
  match rankedData.find? (fun r => r.uid = c.uid) with
  | some rank =>
      { toUser := c
      , compatibilityScore := jsOrInt rank.compatibilityScore 0
      , rankingReason := jsOrString rank.rankingReason noReasonProvided }
  | none =>
      { toUser := c, compatibilityScore := 0, rankingReason := noReasonProvided }

/-- Comparator of the final .sort((a, b) => b.compatibilityScore - a.compatibilityScore):
a is placed no later than b exactly when b.compatibilityScore <= a.compatibilityScore. -/
def scoreDesc (a b : RankedUser) : Bool :=
  decide (b.compatibilityScore ≤ a.compatibilityScore)

/-- The rankCandidates function of geminiService.ts. The module-scope
credential process.env.GEMINI_API_KEY || "" is the apiKey parameter; the
guard if (!apiKey) fires exactly when that string is empty. currentUser
only ever flows into the prompt text, so the returned value does not
depend on it; the outcome parameter abstracts the network call as
described in the file header. -/
def rankCandidates (apiKey : String) (currentUser : User) (candidates : List User)
    (outcome : RankOutcome) : List RankedUser :=
  if apiKey = "" then
    candidates.map (mkFallback unavailableReason)
  else
    match outcome with
    | RankOutcome.threw => candidates.map (mkFallback failedReason)
    | RankOutcome.ok rankedData =>
        (candidates.map (mergeCandidate rankedData)).mergeSort scoreDesc

/-- The uid of a merged record is the uid of the original candidate. -/
theorem mergeCandidate_toUser (rankedData : List RankEntry) (c : User) :
    (mergeCandidate rankedData c).toUser = c := by
  unfold mergeCandidate
  cases rankedData.find? (fun r => r.uid = c.uid) <;> rfl

/-- On every path, the uid list of the output is a permutation of the uid
list of the input candidates. -/
theorem rankCandidates_uid_perm (apiKey : String) (u : User) (C : List User)
    (o : RankOutcome) :
    ((rankCandidates apiKey u C o).map (fun r => r.toUser.uid)).Perm
      (C.map User.uid) := by
  unfold rankCandidates
  by_cases h : apiKey = ""
  · simp [h, mkFallback, Function.comp]
    exact List.Perm.refl _
  · simp [h]
    cases o with
    | threw =>
        simp [mkFallback, Function.comp]
        exact List.Perm.refl _
    | ok rankedData =>
        have hperm :
            ((C.map (mergeCandidate rankedData)).mergeSort scoreDesc).Perm
              (C.map (mergeCandidate rankedData)) :=
          List.mergeSort_perm _ _
        have hmap := hperm.map (fun r => r.toUser.uid)
        refine hmap.trans ?_
        rw [List.map_map]
        have : ((fun r : RankedUser => r.toUser.uid) ∘ mergeCandidate rankedData)
            = User.uid := by
          funext c
          simp [Function.comp, mergeCandidate_toUser]
        rw [this]

/-- C1: for every current user u and candidate list C (possibly empty), on
every execution path (missing credential, successful call with an arbitrary
parsed response, thrown exception) rankCandidates resolves to a list whose
length equals the length of C and whose set of uid values equals the set of
uid values of C. -/
theorem rankCandidates_length_and_uid_set (apiKey : String) (u : User)
    (C : List User) (o : RankOutcome) :
    (rankCandidates apiKey u C o).length = C.length ∧
    ∀ s : String,
      s ∈ (rankCandidates apiKey u C o).map (fun r => r.toUser.uid) ↔
        s ∈ C.map User.uid := by
  have hperm := rankCandidates_uid_perm apiKey u C o
  constructor
  · have := hperm.length_eq
    simpa using this
  · intro s
    exact hperm.mem_iff

/-- Sample requesting user used in concrete witnesses and counterexamples. -/
def sampleUserU : User :=
  { uid := "u1", displayName := "Uma", username := "uma", avatarUrl := "u.png"
  , preferredSports := ["Tennis"], skillLevel := "Pro", locationMode := "live"
  , isVisible := true, staticCoords := { lat := 0, lng := 0 }, displayCoords := none }

/-- Sample candidate with uid "a". -/
def sampleUserA : User :=
  { uid := "a", displayName := "Alice", username := "alice", avatarUrl := "a.png"
  , preferredSports := ["Football", "Running"], skillLevel := "Beginner"
  , locationMode := "static", isVisible := true
  , staticCoords := { lat := 1, lng := 1 }, displayCoords := none }

/-- Sample response entry matching uid "a" with an in-range score. -/
def entryGood : RankEntry :=
  { uid := "a", compatibilityScore := 90, rankingReason := "great fit" }

/-- Sample response entry matching uid "a" with a score outside [0,100]:
nothing in the code clamps scores, the schema constrains only the JSON
shape, not the numeric range. -/
def entryBig : RankEntry :=
  { uid := "a", compatibilityScore := 150, rankingReason := "out of range" }

/-- Sample response entry matching uid "a" whose rankingReason is the empty
string, which JavaScript treats as falsy in rank?.rankingReason || default. -/
def entryEmptyReason : RankEntry :=
  { uid := "a", compatibilityScore := 70, rankingReason := "" }

/-- Evaluation helper: with a credential and a successful outcome, ranking a
single candidate reduces to merging that candidate (a one-element list needs
no reordering). -/
theorem rankCandidates_ok_singleton (apiKey : String) (hk : apiKey ≠ "")
    (u : User) (c : User) (d : List RankEntry) :
    rankCandidates apiKey u [c] (RankOutcome.ok d) = [mergeCandidate d c] := by
  unfold rankCandidates
  rw [if_neg hk]
  show ([mergeCandidate d c]).mergeSort scoreDesc = [mergeCandidate d c]
  exact List.mergeSort_singleton _

/-- C2: if the model call or response parsing throws for any reason,
rankCandidates still resolves, returning every candidate of C with
compatibilityScore 0 and the fixed "Ranking failed" reason, all other
candidate fields unchanged (the whole original record is embedded). -/
theorem rankCandidates_catch (apiKey : String) (hk : apiKey ≠ "") (u : User)
    (C : List User) :
    rankCandidates apiKey u C RankOutcome.threw =
      C.map (fun c =>
        { toUser := c, compatibilityScore := 0, rankingReason := "Ranking failed" }) := by
  unfold rankCandidates
  rw [if_neg hk]
  rfl

/-- Witness for C2 at a concrete credential and candidate list. -/
theorem rankCandidates_catch_witness :
    ("key" : String) ≠ "" ∧
    rankCandidates "key" sampleUserU [sampleUserA] RankOutcome.threw =
      [{ toUser := sampleUserA, compatibilityScore := 0, rankingReason := "Ranking failed" }] :=
  ⟨by decide, rankCandidates_catch "key" (by decide) sampleUserU [sampleUserA]⟩

/-- C3: with an empty credential string, rankCandidates returns every
candidate with compatibilityScore 0 and the fixed "AI ranking unavailable"
reason, regardless of the current user, the candidates and the outcome
parameter; independence from the outcome parameter is the shallow form of
"performs no network call". -/
theorem rankCandidates_no_credential (u : User) (C : List User) (o : RankOutcome) :
    rankCandidates "" u C o =
      C.map (fun c =>
        { toUser := c, compatibilityScore := 0, rankingReason := "AI ranking unavailable" }) := by
  unfold rankCandidates
  rw [if_pos rfl]
  rfl

/-- Helper: both fallback maps produce lists whose scores are all 0, hence
trivially non-increasing. -/
theorem pairwise_fallback (reason : String) (C : List User) :
    List.Pairwise
      (fun a b : RankedUser => b.compatibilityScore ≤ a.compatibilityScore)
      (C.map (mkFallback reason)) := by
  rw [List.pairwise_map]
  induction C with
  | nil => exact List.Pairwise.nil
  | cons c cs ih =>
      refine List.Pairwise.cons ?_ ih
      intro b _
      simp [mkFallback]

/-- Helper: the descending-score comparator is transitive. -/
theorem scoreDesc_trans (a b c : RankedUser) :
    scoreDesc a b = true → scoreDesc b c = true → scoreDesc a c = true := by
  simp only [scoreDesc, decide_eq_true_eq]
  omega

/-- Helper: the descending-score comparator is total. -/
theorem scoreDesc_total (a b : RankedUser) :
    (scoreDesc a b || scoreDesc b a) = true := by
  simp only [scoreDesc, Bool.or_eq_true, decide_eq_true_eq]
  omega

/-- C4: on every path (both fallbacks and the merge-and-sort path with any
parsed response), the resolved list is sorted non-increasing by
compatibilityScore; the order of equal scores is not constrained here. -/
theorem rankCandidates_sorted (apiKey : String) (u : User) (C : List User)
    (o : RankOutcome) :
    List.Pairwise
      (fun a b : RankedUser => b.compatibilityScore ≤ a.compatibilityScore)
      (rankCandidates apiKey u C o) := by
  unfold rankCandidates
  by_cases hk : apiKey = ""
  · rw [if_pos hk]
    exact pairwise_fallback _ _
  · rw [if_neg hk]
    cases o with
    | threw => exact pairwise_fallback _ _
    | ok d =>
        have hs := List.sorted_mergeSort scoreDesc_trans scoreDesc_total
          (C.map (mergeCandidate d))
        exact hs.imp (fun hab => by
          simpa [scoreDesc, decide_eq_true_eq] using hab)

/-- C5 counterexample: the code never clamps scores, so a parsed response
entry with score 150 yields a merged output element with score 150, outside
[0,100]. -/
theorem rankCandidates_score_range_cex :
    ({ toUser := sampleUserA, compatibilityScore := 150
     , rankingReason := "out of range" } : RankedUser)
      ∈ rankCandidates "key" sampleUserU [sampleUserA]
          (RankOutcome.ok [entryBig]) ∧
    ¬ ((150 : Int) ≤ 100) := by
  constructor
  · rw [rankCandidates_ok_singleton "key" (by decide) sampleUserU sampleUserA [entryBig]]
    have : mergeCandidate [entryBig] sampleUserA =
        { toUser := sampleUserA, compatibilityScore := 150
        , rankingReason := "out of range" } := by decide
    rw [this]
    exact List.mem_singleton.mpr rfl
  · decide

/-- C5 amended: unmatched candidates default to 0 and matched candidates
take the response entry's score unchanged (zero is re-defaulted to zero),
so every output score lies in [0,100] provided every parsed response entry
score does; the two fallback paths satisfy the bound unconditionally. -/
theorem rankCandidates_score_bounds (apiKey : String) (u : User) (C : List User)
    (o : RankOutcome)
    (h : ∀ l, o = RankOutcome.ok l →
      ∀ e ∈ l, 0 ≤ e.compatibilityScore ∧ e.compatibilityScore ≤ 100) :
    ∀ r ∈ rankCandidates apiKey u C o,
      0 ≤ r.compatibilityScore ∧ r.compatibilityScore ≤ 100 := by
  intro r hr
  unfold rankCandidates at hr
  by_cases hk : apiKey = ""
  · rw [if_pos hk] at hr
    rcases List.mem_map.mp hr with ⟨c, _, rfl⟩
    simp [mkFallback]
  · rw [if_neg hk] at hr
    cases o with
    | threw =>
        rcases List.mem_map.mp hr with ⟨c, _, rfl⟩
        simp [mkFallback]
    | ok d =>
        have hr2 : r ∈ C.map (mergeCandidate d) :=
          (List.mergeSort_perm _ _).mem_iff.mp hr
        rcases List.mem_map.mp hr2 with ⟨c, _, rfl⟩
        unfold mergeCandidate
        cases hfind : d.find? (fun e => e.uid = c.uid) with
        | none => simp
        | some e =>
            have he : e ∈ d := List.mem_of_find?_eq_some hfind
            have hb := h d rfl e he
            simp only [jsOrInt]
            by_cases h0 : e.compatibilityScore = 0
            · rw [if_pos h0]
              exact ⟨le_refl 0, by norm_num⟩
            · rw [if_neg h0]
              exact hb

/-- Witness for the amended C5 at a concrete in-range response. -/
theorem rankCandidates_score_bounds_witness :
    0 ≤ ({ toUser := sampleUserA, compatibilityScore := 90
         , rankingReason := "great fit" } : RankedUser).compatibilityScore ∧
    ({ toUser := sampleUserA, compatibilityScore := 90
     , rankingReason := "great fit" } : RankedUser).compatibilityScore ≤ 100 :=
  rankCandidates_score_bounds "key" sampleUserU [sampleUserA]
    (RankOutcome.ok [entryGood])
    (by
      intro l hl e he
      cases hl
      simp only [List.mem_singleton] at he
      subst he
      decide)
    { toUser := sampleUserA, compatibilityScore := 90, rankingReason := "great fit" }
    (by
      rw [rankCandidates_ok_singleton "key" (by decide) sampleUserU sampleUserA [entryGood]]
      have : mergeCandidate [entryGood] sampleUserA =
          { toUser := sampleUserA, compatibilityScore := 90
          , rankingReason := "great fit" } := by decide
      rw [this]
      exact List.mem_singleton.mpr rfl)

/-- Defaulting with 0 as the default is the identity on integers: the only
falsy integer is 0 itself. -/
theorem jsOrInt_zero (n : Int) : jsOrInt n 0 = n := by
  unfold jsOrInt
  by_cases h : n = 0
  · rw [if_pos h, h]
  · rw [if_neg h]

/-- C6 counterexample: the response entry matches the candidate's uid, yet
because the entry's rankingReason is the empty string (falsy in JavaScript)
the output carries the default reason instead of the entry's reason. -/
theorem mergeCandidate_exact_reason_cex :
    rankCandidates "key" sampleUserU [sampleUserA]
        (RankOutcome.ok [entryEmptyReason]) =
      [{ toUser := sampleUserA, compatibilityScore := 70
       , rankingReason := "No specific reason provided" }] ∧
    entryEmptyReason.uid = sampleUserA.uid ∧
    entryEmptyReason.rankingReason ≠ "No specific reason provided" := by
  refine ⟨?_, by decide, by decide⟩
  rw [rankCandidates_ok_singleton "key" (by decide) sampleUserU sampleUserA
    [entryEmptyReason]]
  decide

/-- C6 amended: the merge preserves the full candidate record; when the
first response entry matching the candidate's uid exists, the output takes
exactly that entry's compatibilityScore, and exactly its rankingReason when
that reason is nonempty, the empty string being replaced by the fixed
default; with no matching entry the score defaults to 0 and the reason to
the fixed default; and the merged output has exactly one element per input
candidate, so unmatched response entries synthesize nothing and output
length never exceeds input length. -/
theorem mergeCandidate_spec (d : List RankEntry) (c : User) (C : List User) :
    (mergeCandidate d c).toUser = c ∧
    (∀ e, d.find? (fun r => r.uid = c.uid) = some e →
        (mergeCandidate d c).compatibilityScore = e.compatibilityScore ∧
        (e.rankingReason ≠ "" →
          (mergeCandidate d c).rankingReason = e.rankingReason) ∧
        (e.rankingReason = "" →
          (mergeCandidate d c).rankingReason = "No specific reason provided")) ∧
    (d.find? (fun r => r.uid = c.uid) = none →
        (mergeCandidate d c).compatibilityScore = 0 ∧
        (mergeCandidate d c).rankingReason = "No specific reason provided") ∧
    (C.map (mergeCandidate d)).length = C.length := by
  refine ⟨mergeCandidate_toUser d c, ?_, ?_, by rw [List.length_map]⟩
  · intro e hfind
    simp only [mergeCandidate, hfind]
    refine ⟨jsOrInt_zero _, ?_, ?_⟩
    · intro hne
      simp only [jsOrString, if_neg hne]
    · intro he
      simp only [jsOrString, if_pos he]
      rfl
  · intro hfind
    simp only [mergeCandidate, hfind]
    refine ⟨?_, ?_⟩ <;> trivial

/-- Witness for the amended C6: a matched entry with a nonempty reason has
its score and reason attached verbatim, and mapping preserves length. -/
theorem mergeCandidate_spec_witness :
    (mergeCandidate [entryGood] sampleUserA).toUser = sampleUserA ∧
    (mergeCandidate [entryGood] sampleUserA).compatibilityScore =
      entryGood.compatibilityScore ∧
    (mergeCandidate [entryGood] sampleUserA).rankingReason =
      entryGood.rankingReason ∧
    ([sampleUserU].map (mergeCandidate [entryGood])).length =
      ([sampleUserU] : List User).length :=
  ⟨(mergeCandidate_spec [entryGood] sampleUserA [sampleUserU]).1,
   ((mergeCandidate_spec [entryGood] sampleUserA [sampleUserU]).2.1 entryGood
      (by decide)).1,
   ((mergeCandidate_spec [entryGood] sampleUserA [sampleUserU]).2.1 entryGood
      (by decide)).2.1 (by decide),
   (mergeCandidate_spec [entryGood] sampleUserA [sampleUserU]).2.2.2⟩

/-- Party record from ../types as consumed by MapView: schedule, venue,
capacity and membership data; optional fields are Option-valued. -/
structure Party where
  id : String
  title : String
  description : String
  sport : String
  venueName : Option String
  placeId : Option String
  latitude : Int
  longitude : Int
  date : String
  startTime : String
  endTime : String
  playersCurrent : Int
  playersMax : Int
  members : List String
  distance : Option Int
  travelTime : Option String
deriving DecidableEq, Repr

/-- Result record of getButtonState in MapView: label, disabled flag and
style class of the join button. -/
structure ButtonState where
  text : String
  disabled : Bool
  className : String
deriving DecidableEq, Repr

/-- The getButtonState helper of MapView: isJoined is
party.members.includes(currentUser), isFull is
party.playersCurrent >= party.playersMax, checked in that order. -/
def getButtonState (currentUser : String) (party : Party) : ButtonState :=
  let isJoined := currentUser ∈ party.members
  let isFull := party.playersCurrent ≥ party.playersMax
  if isJoined then
    { text := "Joined", disabled := true
    , className := "bg-green-600 text-white cursor-default" }
  else if isFull then
    { text := "Full", disabled := true
    , className := "bg-gray-300 text-gray-500 cursor-not-allowed" }
  else
    { text := "Join Party", disabled := false
    , className := "bg-blue-600 text-white hover:bg-blue-700" }

/-- C7: the join button is labelled "Joined" and disabled whenever the
current user is a member (regardless of fullness); otherwise "Full" and
disabled when the party is at or over capacity; otherwise "Join Party" and
enabled. -/
theorem getButtonState_spec (cu : String) (p : Party) :
    (cu ∈ p.members →
      (getButtonState cu p).text = "Joined" ∧
      (getButtonState cu p).disabled = true) ∧
    (cu ∉ p.members → p.playersCurrent ≥ p.playersMax →
      (getButtonState cu p).text = "Full" ∧
      (getButtonState cu p).disabled = true) ∧
    (cu ∉ p.members → p.playersCurrent < p.playersMax →
      (getButtonState cu p).text = "Join Party" ∧
      (getButtonState cu p).disabled = false) := by
  refine ⟨?_, ?_, ?_⟩
  · intro hj
    simp only [getButtonState, if_pos hj]
    refine ⟨?_, ?_⟩ <;> trivial
  · intro hj hf
    simp only [getButtonState, if_neg hj, if_pos hf]
    refine ⟨?_, ?_⟩ <;> trivial
  · intro hj hf
    have hnf : ¬ p.playersCurrent ≥ p.playersMax := by omega
    simp only [getButtonState, if_neg hj, if_neg hnf]
    refine ⟨?_, ?_⟩ <;> trivial

/-- Sample full party (10 of 10 players) whose only member is "m1". -/
def fullParty : Party :=
  { id := "p1", title := "Morning Football", description := "Friendly match"
  , sport := "Football", venueName := some "Central Park"
  , placeId := some "ChIJxxx", latitude := 1, longitude := 2
  , date := "2026-10-11", startTime := "10:00", endTime := "12:00"
  , playersCurrent := 10, playersMax := 10, members := ["m1"]
  , distance := none, travelTime := none }

/-- Witness for C7: the spec scenario, a full party where the current user
is not a member gives a disabled "Full" button, and the member "m1" gets a
disabled "Joined" button despite fullness. -/
theorem getButtonState_spec_witness :
    ((getButtonState "u1" fullParty).text = "Full" ∧
     (getButtonState "u1" fullParty).disabled = true) ∧
    ((getButtonState "m1" fullParty).text = "Joined" ∧
     (getButtonState "m1" fullParty).disabled = true) :=
  ⟨(getButtonState_spec "u1" fullParty).2.1 (by decide) (by decide),
   (getButtonState_spec "m1" fullParty).1 (by decide)⟩

/-- Selection state held by MapView via two independent useState slots:
selectedParty and selectedCandidate. -/
structure MapSelection where
  selectedParty : Option Party
  selectedCandidate : Option RankedUser
deriving DecidableEq, Repr

/-- Map-surface click handler of the GoogleMap element:
onClick is () => setSelectedParty(null), and nothing else. -/
def handleMapClick (s : MapSelection) : MapSelection :=
  { s with selectedParty := none }

/-- Party marker click handler: () => setSelectedParty(party). -/
def handlePartyMarkerClick (p : Party) (s : MapSelection) : MapSelection :=
  { s with selectedParty := some p }

/-- Candidate marker click handler: () => setSelectedCandidate(candidate). -/
def handleCandidateMarkerClick (c : RankedUser) (s : MapSelection) : MapSelection :=
  { s with selectedCandidate := some c }

/-- Close control of the party info panel:
onCloseClick is () => setSelectedParty(null). -/
def handlePartyCloseClick (s : MapSelection) : MapSelection :=
  { s with selectedParty := none }

/-- Close control of the candidate info panel:
onCloseClick is () => setSelectedCandidate(null). -/
def handleCandidateCloseClick (s : MapSelection) : MapSelection :=
  { s with selectedCandidate := none }

/-- Sample ranked candidate used in concrete selection states. -/
def rankedSampleA : RankedUser :=
  { toUser := sampleUserA, compatibilityScore := 90, rankingReason := "great fit" }

/-- C8 counterexample: starting from a state with a selected candidate, the
map-surface click handler leaves the selected-candidate slot untouched (it
only clears the selected-party slot), so the claim that a map click also
clears the candidate selection is false. -/
theorem handleMapClick_clears_candidate_cex :
    (handleMapClick
        { selectedParty := some fullParty
        , selectedCandidate := some rankedSampleA }).selectedCandidate =
      some rankedSampleA ∧
    some rankedSampleA ≠ (none : Option RankedUser) :=
  ⟨rfl, by simp⟩

/-- C8 amended: a click on empty map area clears only the selected-party
slot and leaves the selected-candidate slot unchanged; each info panel's
close control clears its own selection slot and leaves the other slot
unchanged. -/
theorem mapClick_selection_spec (s : MapSelection) :
    (handleMapClick s).selectedParty = none ∧
    (handleMapClick s).selectedCandidate = s.selectedCandidate ∧
    (handlePartyCloseClick s).selectedParty = none ∧
    (handlePartyCloseClick s).selectedCandidate = s.selectedCandidate ∧
    (handleCandidateCloseClick s).selectedCandidate = none ∧
    (handleCandidateCloseClick s).selectedParty = s.selectedParty :=
  ⟨rfl, rfl, rfl, rfl, rfl, rfl⟩

/-- High-band marker color of getCandidateMarkerIcon. -/
def highScoreColor : String := "#f59e0b"

/-- Mid-band marker color of getCandidateMarkerIcon. -/
def midScoreColor : String := "#3b82f6"

/-- Neutral default marker color of getCandidateMarkerIcon. -/
def neutralScoreColor : String := "#6b7280"

/-- Color selection of getCandidateMarkerIcon:
score > 80 ? high : score > 50 ? mid : neutral. -/
def candidateMarkerColor (score : Int) : String :=
  if 80 < score then highScoreColor
  else if 50 < score then midScoreColor
  else neutralScoreColor

/-- C9 counterexample: a score of exactly 50 gets the neutral default color,
not the mid-band color, because the mid branch requires score > 50
strictly. -/
theorem candidateMarkerColor_at_50_cex :
    candidateMarkerColor 50 = neutralScoreColor ∧
    neutralScoreColor ≠ midScoreColor :=
  ⟨by decide, by decide⟩

/-- C9 amended: the high color applies to scores strictly above 80, the mid
color to scores strictly above 50 and at most 80, and the neutral default
to scores at most 50 (so exactly 50 is neutral, not mid). -/
theorem candidateMarkerColor_bands (score : Int) :
    (80 < score → candidateMarkerColor score = highScoreColor) ∧
    (50 < score → score ≤ 80 → candidateMarkerColor score = midScoreColor) ∧
    (score ≤ 50 → candidateMarkerColor score = neutralScoreColor) := by
  refine ⟨?_, ?_, ?_⟩
  · intro h
    simp only [candidateMarkerColor, if_pos h]
  · intro h1 h2
    have hn : ¬ 80 < score := by omega
    simp only [candidateMarkerColor, if_neg hn, if_pos h1]
  · intro h
    have hn1 : ¬ 80 < score := by omega
    have hn2 : ¬ 50 < score := by omega
    simp only [candidateMarkerColor, if_neg hn1, if_neg hn2]

/-- Witness for the amended C9 at one score per band. -/
theorem candidateMarkerColor_bands_witness :
    candidateMarkerColor 90 = highScoreColor ∧
    candidateMarkerColor 60 = midScoreColor ∧
    candidateMarkerColor 50 = neutralScoreColor :=
  ⟨(candidateMarkerColor_bands 90).1 (by decide),
   (candidateMarkerColor_bands 60).2.1 (by decide) (by decide),
   (candidateMarkerColor_bands 50).2.2 (by decide)⟩

/-- Identifiers imported or defined at module scope in the MapView file:
the React imports, the @react-google-maps/api imports, the type imports,
the lucide-react icon imports (with User renamed to UserIcon), the
geospatial helper, the declared google global, and the module-level
constants and helpers. CheckCircle is not among them. -/
def mapViewScopeIdentifiers : List String :=
  ["React", "useState", "useCallback", "useEffect",
   "GoogleMap", "MarkerF", "InfoWindowF", "MarkerClustererF",
   "Party", "SportType", "User", "RankedUser",
   "Users", "Calendar", "Clock", "Loader2", "AlertTriangle", "MapPin",
   "Navigation", "Car", "Sparkles", "UserIcon",
   "formatDistance", "google",
   "containerStyle", "mapOptions", "getMarkerIcon", "getCandidateMarkerIcon",
   "MapView"]

/-- Component identifiers referenced by the join-button JSX beyond intrinsic
elements: the guard btn.text === "Joined" && <CheckCircle size=14 />
references CheckCircle exactly when the computed label is "Joined"; the
other branches render only intrinsic elements and btn fields. -/
def joinButtonReferencedComponents (b : ButtonState) : List String :=
  if b.text = "Joined" then ["CheckCircle"] else []

/-- Evaluation of a JSX expression is total only when every referenced
component identifier is in scope; an out-of-scope identifier raises a
ReferenceError when the expression is evaluated. -/
def rendersWithoutError (referenced : List String) (scope : List String) : Prop :=
  ∀ i ∈ referenced, i ∈ scope

/-- C10: CheckCircle is neither imported nor defined in the MapView file,
and the join-button JSX references it exactly in the "Joined" branch, so
rendering the party panel for a party whose members include the current
user is not total, while the "Full" and "Join Party" branches reference
only in-scope identifiers and render without error. -/
theorem joinButton_checkCircle_missing (cu : String) (p : Party) :
    "CheckCircle" ∉ mapViewScopeIdentifiers ∧
    (cu ∈ p.members →
      ¬ rendersWithoutError
          (joinButtonReferencedComponents (getButtonState cu p))
          mapViewScopeIdentifiers) ∧
    (cu ∉ p.members →
      rendersWithoutError
        (joinButtonReferencedComponents (getButtonState cu p))
        mapViewScopeIdentifiers) := by
  refine ⟨by decide, ?_, ?_⟩
  · intro hj hren
    have htext : (getButtonState cu p).text = "Joined" := by
      simp only [getButtonState, if_pos hj]
    have hrefs : joinButtonReferencedComponents (getButtonState cu p) =
        ["CheckCircle"] := by
      simp only [joinButtonReferencedComponents, htext, if_pos]
    rw [hrefs] at hren
    have := hren "CheckCircle" (List.mem_singleton.mpr rfl)
    revert this
    decide
  · intro hj
    have htext : (getButtonState cu p).text ≠ "Joined" := by
      simp only [getButtonState, if_neg hj]
      by_cases hf : p.playersCurrent ≥ p.playersMax
      · rw [if_pos hf]
        decide
      · rw [if_neg hf]
        decide
    have hrefs : joinButtonReferencedComponents (getButtonState cu p) =
        [] := by
      simp only [joinButtonReferencedComponents, if_neg htext]
    rw [hrefs]
    intro i hi
    exact absurd hi (List.not_mem_nil i)

/-- Witness for C10: on the sample full party, the member "m1" hits the
broken "Joined" branch and the non-member "u1" hits a branch that renders
without error. -/
theorem joinButton_checkCircle_missing_witness :
    (¬ rendersWithoutError
        (joinButtonReferencedComponents (getButtonState "m1" fullParty))
        mapViewScopeIdentifiers) ∧
    rendersWithoutError
      (joinButtonReferencedComponents (getButtonState "u1" fullParty))
      mapViewScopeIdentifiers :=
  ⟨(joinButton_checkCircle_missing "m1" fullParty).2.1 (by decide),
   (joinButton_checkCircle_missing "u1" fullParty).2.2 (by decide)⟩
